import Mathlib

/-!
# Verification of the mycelium Kubernetes operator against its specification

Shallow embedding of the mycelium operator (nikhiljha/mycelium) in Lean 4.
The embedded functions are translated from the Rust sources under
`src/operator/src/`:

* `objects/mod.rs` — `generic_reconcile`, `make_volume`, `make_volume_mount`,
  `object_to_owner_reference`, with the forwarding-token derivation
  (SHA-224 then base64).
* `helpers/manager.rs` — `Manager::get_sets` (the proxy → sets join).
* `helpers/jarapi.rs` — `get_download_url`.
* `objects/minecraft_set.rs`, `objects/minecraft_proxy.rs` — the per-kind
  reconcilers that the manager wires to the controllers (these are an older
  revision than `objects/mod.rs`; both are embedded because both appear in
  the repository).

Machine integers are modelled as `Nat`/`Int` with explicit reductions
mod 2^32 where the SHA-224 compression overflows.  Fallible code returns
`Except String` mirroring `Result<_, Error::MyceliumError>`.
-/

namespace Mycelium

/-! ## SHA-224 (FIPS 180-4), as used by the `sha2` crate in `objects/mod.rs`

`generic_reconcile` computes
`base64(Sha224(format!("{}{}", forwarding_secret, ns)))`.
We implement SHA-224 over byte lists with `Nat` words reduced mod 2^32.
-/

/-- 2^32, the word modulus of SHA-256/224. -/
def M32 : Nat := 4294967296

/-- Rotate a 32-bit word right by `n` bits (arithmetic formulation). -/
def rotr (n x : Nat) : Nat := (x / 2 ^ n) + (x % 2 ^ n) * 2 ^ (32 - n)

/-- Logical shift right. -/
def shr (n x : Nat) : Nat := x / 2 ^ n

/-- SHA-256 small sigma 0. -/
def ssig0 (x : Nat) : Nat := Nat.xor (Nat.xor (rotr 7 x) (rotr 18 x)) (shr 3 x)

/-- SHA-256 small sigma 1. -/
def ssig1 (x : Nat) : Nat := Nat.xor (Nat.xor (rotr 17 x) (rotr 19 x)) (shr 10 x)

/-- SHA-256 big sigma 0. -/
def bsig0 (x : Nat) : Nat := Nat.xor (Nat.xor (rotr 2 x) (rotr 13 x)) (rotr 22 x)

/-- SHA-256 big sigma 1. -/
def bsig1 (x : Nat) : Nat := Nat.xor (Nat.xor (rotr 6 x) (rotr 11 x)) (rotr 25 x)

/-- SHA-256 choice function. -/
def chFn (e f g : Nat) : Nat :=
  Nat.xor (Nat.land e f) (Nat.land (Nat.xor e 4294967295) g)

/-- SHA-256 majority function. -/
def majFn (a b c : Nat) : Nat :=
  Nat.xor (Nat.xor (Nat.land a b) (Nat.land a c)) (Nat.land b c)

/-- The 64 SHA-256 round constants. -/
def sha2K : List Nat :=
  [1116352408, 1899447441, 3049323471, 3921009573, 961987163,
   1508970993, 2453635748, 2870763221, 3624381080, 310598401,
   607225278, 1426881987, 1925078388, 2162078206, 2614888103,
   3248222580, 3835390401, 4022224774, 264347078, 604807628,
   770255983, 1249150122, 1555081692, 1996064986, 2554220882,
   2821834349, 2952996808, 3210313671, 3336571891, 3584528711,
   113926993, 338241895, 666307205, 773529912, 1294757372,
   1396182291, 1695183700, 1986661051, 2177026350, 2456956037,
   2730485921, 2820302411, 3259730800, 3345764771, 3516065817,
   3600352804, 4094571909, 275423344, 430227734, 506948616,
   659060556, 883997877, 958139571, 1322822218, 1537002063,
   1747873779, 1955562222, 2024104815, 2227730452, 2361852424,
   2428436474, 2756734187, 3204031479, 3329325298]

/-- SHA-224 initial hash words (FIPS 180-4 §5.3.2). -/
def sha224Init : List Nat :=
  [3238371032, 914150663, 812702999, 4144912697,
   4290775857, 1750603025, 1694076839, 3204075428]

/-- One step of the message-schedule extension.  The accumulator holds the
schedule words already produced, newest first, so `w[t-2]` is index 1,
`w[t-7]` index 6, `w[t-15]` index 14 and `w[t-16]` index 15. -/
def schedStep (acc : List Nat) : Nat :=
  (ssig1 (acc.getD 1 0) + acc.getD 6 0 + ssig0 (acc.getD 14 0) + acc.getD 15 0) % M32

/-- Extend the message schedule by `n` further words. -/
def extendSched : Nat → List Nat → List Nat
  | 0, acc => acc
  | n + 1, acc => extendSched n (schedStep acc :: acc)

/-- Full 64-word message schedule from a 16-word block. -/
def sched (block : List Nat) : List Nat :=
  (extendSched 48 block.reverse).reverse

/-- Working state of the compression function. -/
structure Hash8 where
  a : Nat
  b : Nat
  c : Nat
  d : Nat
  e : Nat
  f : Nat
  g : Nat
  h : Nat
deriving Repr, DecidableEq

/-- One SHA-256 compression round with round constant `k` and schedule word
`w`. -/
def roundFn (k w : Nat) (s : Hash8) : Hash8 :=
  let t1 := (s.h + bsig1 s.e + chFn s.e s.f s.g + k + w) % M32
  let t2 := (bsig0 s.a + majFn s.a s.b s.c) % M32
  { a := (t1 + t2) % M32, b := s.a, c := s.b, d := s.c,
    e := (s.d + t1) % M32, f := s.e, g := s.f, h := s.g }

/-- Run the rounds over paired constant/schedule lists. -/
def compressRounds : List Nat → List Nat → Hash8 → Hash8
  | k :: ks, w :: ws, s => compressRounds ks ws (roundFn k w s)
  | _, _, s => s

/-- Compress one 16-word block into the running hash. -/
def compressBlock (hh : List Nat) (block : List Nat) : List Nat :=
  let s0 : Hash8 :=
    { a := hh.getD 0 0, b := hh.getD 1 0, c := hh.getD 2 0, d := hh.getD 3 0,
      e := hh.getD 4 0, f := hh.getD 5 0, g := hh.getD 6 0, h := hh.getD 7 0 }
  let s := compressRounds sha2K (sched block) s0
  [(s0.a + s.a) % M32, (s0.b + s.b) % M32, (s0.c + s.c) % M32,
   (s0.d + s.d) % M32, (s0.e + s.e) % M32, (s0.f + s.f) % M32,
   (s0.g + s.g) % M32, (s0.h + s.h) % M32]

/-- Process the padded word stream, 16 words per block. -/
def sha2Process : List Nat → List Nat → List Nat
  | hh, w0 :: w1 :: w2 :: w3 :: w4 :: w5 :: w6 :: w7 :: w8 :: w9 :: w10 :: w11
      :: w12 :: w13 :: w14 :: w15 :: rest =>
    sha2Process
      (compressBlock hh [w0, w1, w2, w3, w4, w5, w6, w7, w8, w9, w10, w11, w12, w13, w14, w15])
      rest
  | hh, _ => hh

/-- `k` bytes of `n`, big endian. -/
def toBytesBE : Nat → Nat → List Nat
  | 0, _ => []
  | k + 1, n => toBytesBE k (n / 256) ++ [n % 256]

/-- Group bytes into 32-bit big-endian words. -/
def bytesToWords : List Nat → List Nat
  | a :: b :: c :: d :: rest => (((a * 256 + b) * 256 + c) * 256 + d) :: bytesToWords rest
  | _ => []

/-- Number of zero bytes in the SHA-2 padding for a message of `len` bytes. -/
def padZeros (len : Nat) : Nat := (119 - len % 64) % 64

/-- SHA-224 digest (28 bytes) of a byte list. -/
def sha224Bytes (msg : List Nat) : List Nat :=
  let padded := msg ++ 128 :: List.replicate (padZeros msg.length) 0 ++ toBytesBE 8 (msg.length * 8)
  let hh := sha2Process sha224Init (bytesToWords padded)
  ((hh.take 7).map (toBytesBE 4)).flatten

/-! ## Base64 (standard alphabet with padding), as used by
`base64::engine::general_purpose::STANDARD` in `objects/mod.rs`. -/

/-- The standard base64 alphabet. -/
def b64Alphabet : List Char :=
  "ABCDEFGHIJKLMNOPQRSTUVWXYZabcdefghijklmnopqrstuvwxyz0123456789+/".data

/-- Character for a 6-bit value. -/
def b64Char (n : Nat) : Char := b64Alphabet.getD n 'A'

/-- Standard base64 encoding of a byte list, with `=` padding. -/
def base64Encode : List Nat → String
  | [] => ""
  | [a] =>
    String.mk [b64Char (a / 4), b64Char (a % 4 * 16), '=', '=']
  | [a, b] =>
    String.mk [b64Char (a / 4), b64Char (a % 4 * 16 + b / 16), b64Char (b % 16 * 4), '=']
  | a :: b :: c :: rest =>
    String.mk [b64Char (a / 4), b64Char (a % 4 * 16 + b / 16),
               b64Char (b % 16 * 4 + c / 64), b64Char (c % 64)] ++ base64Encode rest

/-! ## UTF-8 bytes of a string (Rust `String::as_bytes`). -/

/-- UTF-8 encoding of one scalar value. -/
def utf8EncodeCharNat (c : Char) : List Nat :=
  let n := c.toNat
  if n < 128 then [n]
  else if n < 2048 then [192 + n / 64, 128 + n % 64]
  else if n < 65536 then [224 + n / 4096, 128 + n / 64 % 64, 128 + n % 64]
  else [240 + n / 262144, 128 + n / 4096 % 64, 128 + n / 64 % 64, 128 + n % 64]

/-- UTF-8 bytes of a string. -/
def utf8Bytes (s : String) : List Nat := s.data.flatMap utf8EncodeCharNat

/-- The forwarding token computed by `generic_reconcile`
(`objects/mod.rs` lines 318–321):
`base64(sha224(format!("{}{}", forwarding_secret, ns).as_bytes()))`. -/
def forwardingToken (secret ns : String) : String :=
  base64Encode (sha224Bytes (utf8Bytes (secret ++ ns)))

/-- The token derivation as worded by the specification: base64 of
SHA-224 of the byte concatenation of the global secret and the namespace
(`base64(SHA-224(s ‖ n))`). -/
def specForwardingToken (s n : String) : String :=
  base64Encode (sha224Bytes (utf8Bytes s ++ utf8Bytes n))

/-! ## Kubernetes object model (the fields the operator sets)

Structures mirror the `k8s_openapi` types used in `objects/mod.rs`,
restricted to the fields the operator reads or writes; maps
(`BTreeMap<String, String>`) are association lists. -/

/-- `SecretKeySelector` (core/v1). -/
structure SecretKeySelector where
  key : String
  name : String
  optional : Option Bool
deriving Repr, DecidableEq

/-- `EnvVarSource` (core/v1); the operator only ever sets `secret_key_ref`. -/
structure EnvVarSource where
  secretKeyRef : Option SecretKeySelector
deriving Repr, DecidableEq

/-- `EnvVar` (core/v1). -/
structure EnvVar where
  name : String
  value : Option String
  valueFrom : Option EnvVarSource
deriving Repr, DecidableEq

/-- `IntOrString` (apimachinery). -/
inductive IntOrString where
  | int (n : Int)
  | str (s : String)
deriving Repr, DecidableEq

/-- `ConfigMapVolumeSource` (core/v1); only `name` is set. -/
structure ConfigMapVolumeSource where
  name : String
deriving Repr, DecidableEq

/-- `Volume` (core/v1); the operator sets `name`/`config_map` itself and
passes user-supplied volumes through unchanged. -/
structure Volume where
  name : String
  configMap : Option ConfigMapVolumeSource := none
deriving Repr, DecidableEq

/-- `VolumeMount` (core/v1). -/
structure VolumeMount where
  name : String
  mountPath : String
deriving Repr, DecidableEq

/-- `OwnerReference` (apimachinery). -/
structure OwnerReference where
  apiVersion : String
  kind : String
  name : String
  uid : String
  controller : Option Bool := none
deriving Repr, DecidableEq

/-- `ObjectMeta` (apimachinery).  `annots` models the `annotations` field
and `namespace_` the `namespace` field (a Lean keyword). -/
structure MetaData where
  name : Option String := none
  generateName : Option String := none
  namespace_ : Option String := none
  uid : Option String := none
  labels : Option (List (String × String)) := none
  annots : Option (List (String × String)) := none
  ownerReferences : Option (List OwnerReference) := none
deriving Repr, DecidableEq

/-- `PersistentVolumeClaim` (core/v1); only its metadata name is read. -/
structure PersistentVolumeClaim where
  metadata : MetaData
deriving Repr, DecidableEq

/-- `LabelSelectorRequirement` (apimachinery); never constructed by the
operator, carried for field fidelity. -/
structure LabelSelectorRequirement where
  key : String
  operator : String
  values : Option (List String)
deriving Repr, DecidableEq

/-- `LabelSelector` (apimachinery). -/
structure LabelSelector where
  matchLabels : Option (List (String × String)) := none
  matchExpressions : Option (List LabelSelectorRequirement) := none
deriving Repr, DecidableEq

instance : Inhabited LabelSelector := ⟨{}⟩

/-- `ResourceRequirements` (core/v1); passed through unchanged. -/
structure ResourceRequirements where
  limits : Option (List (String × String)) := none
  requests : Option (List (String × String)) := none
deriving Repr, DecidableEq

/-- `PodSecurityContext` (core/v1); passed through unchanged. -/
structure PodSecurityContext where
  runAsUser : Option Int := none
  runAsGroup : Option Int := none
  fsGroup : Option Int := none
  runAsNonRoot : Option Bool := none
deriving Repr, DecidableEq

/-- `Container` (core/v1), restricted to fields set in the sources. -/
structure Container where
  name : String
  tty : Option Bool := none
  stdin : Option Bool := none
  image : Option String := none
  imagePullPolicy : Option String := none
  resources : Option ResourceRequirements := none
  env : Option (List EnvVar) := none
  volumeMounts : Option (List VolumeMount) := none
deriving Repr, DecidableEq

/-- `PodSpec` (core/v1), restricted to fields set in the sources. -/
structure PodSpec where
  securityContext : Option PodSecurityContext := none
  containers : List Container
  volumes : Option (List Volume) := none
deriving Repr, DecidableEq

/-- `PodTemplateSpec` (core/v1). -/
structure PodTemplateSpec where
  metadata : Option MetaData := none
  spec : Option PodSpec := none
deriving Repr, DecidableEq

/-- `StatefulSetSpec` (apps/v1), restricted to fields set in the sources. -/
structure StatefulSetSpec where
  selector : LabelSelector
  serviceName : Option String := none
  replicas : Option Int := none
  template : PodTemplateSpec
  volumeClaimTemplates : Option (List PersistentVolumeClaim) := none
deriving Repr, DecidableEq

/-- `StatefulSet` (apps/v1). -/
structure StatefulSet where
  metadata : MetaData
  spec : Option StatefulSetSpec := none
deriving Repr, DecidableEq

/-- `ServicePort` (core/v1). -/
structure ServicePort where
  protocol : Option String := none
  port : Int
  targetPort : Option IntOrString := none
deriving Repr, DecidableEq

/-- `ServiceSpec` (core/v1), restricted to fields set in the sources. -/
structure ServiceSpec where
  clusterIP : Option String := none
  selector : Option (List (String × String)) := none
  ports : Option (List ServicePort) := none
deriving Repr, DecidableEq

/-- `Service` (core/v1). -/
structure Service where
  metadata : MetaData
  spec : Option ServiceSpec := none
deriving Repr, DecidableEq

/-- `PodDisruptionBudgetSpec` (policy/v1). -/
structure PodDisruptionBudgetSpec where
  maxUnavailable : Option IntOrString := none
  minAvailable : Option IntOrString := none
  selector : Option LabelSelector := none
  unhealthyPodEvictionPolicy : Option String := none
deriving Repr, DecidableEq

/-- `PodDisruptionBudget` (policy/v1). -/
structure PodDisruptionBudget where
  metadata : MetaData
  spec : Option PodDisruptionBudgetSpec := none
deriving Repr, DecidableEq

/-- `Secret` (core/v1), restricted to the fields the operator sets. -/
structure Secret where
  metadata : MetaData
  stringData : Option (List (String × String)) := none
deriving Repr, DecidableEq

/-! ## CRD spec types (`objects/mod.rs`, `minecraft_set.rs`,
`minecraft_proxy.rs`) -/

/-- `ConfigOptions` (`objects/mod.rs`): a configmap name and the path under
the Minecraft root to mount it at. -/
structure ConfigOptions where
  name : String
  path : String
deriving Repr, DecidableEq

/-- `VersionTriple` (`objects/mod.rs`). `type_` models the Rust field
`r#type`. -/
structure VersionTriple where
  type_ : String
  version : String
  build : String
deriving Repr, DecidableEq

/-- `RunnerOptions` (`objects/mod.rs`). -/
structure RunnerOptions where
  jar : VersionTriple
  jvm : Option String := none
  config : Option (List ConfigOptions) := none
  plugins : Option (List String) := none
deriving Repr, DecidableEq

/-- `ContainerOptions` (`objects/mod.rs`). -/
structure ContainerOptions where
  stateful : Option Bool := none
  resources : Option ResourceRequirements := none
  volume : Option Volume := none
  volumeClaimTemplate : Option PersistentVolumeClaim := none
  nodeSelector : Option (List (String × String)) := none
  securityContext : Option PodSecurityContext := none
deriving Repr, DecidableEq

/-- `ProxyOptions` on a MinecraftSet, in the revision `helpers/manager.rs`
reads (`spec.proxy.clone().unwrap_or_default()` with `hostname` and
`priority`). -/
structure ProxyOptions where
  hostname : Option String := none
  priority : Option Nat := none
deriving Repr, DecidableEq

instance : Inhabited ProxyOptions := ⟨{}⟩

/-- `MinecraftSetSpec` (`minecraft_set.rs`), with `proxy` optional as
`helpers/manager.rs` expects (`spec.proxy.clone().unwrap_or_default()`). -/
structure MinecraftSetSpec where
  replicas : Int
  type_ : String
  game : RunnerOptions
  container : ContainerOptions
  proxy : Option ProxyOptions := none
deriving Repr, DecidableEq

/-- The `MinecraftSet` custom resource. -/
structure MinecraftSet where
  metadata : MetaData
  spec : MinecraftSetSpec
deriving Repr, DecidableEq

/-- `MinecraftProxySpec` (`minecraft_proxy.rs`), with the `selector` field
`helpers/manager.rs` reads (`proxy_spec.selector.unwrap_or_default()`). -/
structure MinecraftProxySpec where
  replicas : Int
  type_ : String
  proxy : RunnerOptions
  container : ContainerOptions
  selector : Option LabelSelector := none
deriving Repr, DecidableEq

/-- The `MinecraftProxy` custom resource. -/
structure MinecraftProxy where
  metadata : MetaData
  spec : MinecraftProxySpec
deriving Repr, DecidableEq

/-- `MyceliumConfig` (`helpers/manager.rs`): the operator-global
configuration. -/
structure MyceliumConfig where
  forwardingSecret : String
  runnerImage : String
deriving Repr, DecidableEq

/-! ## Child-object builders (`objects/mod.rs`) -/

/-- `get_download_url` (`helpers/jarapi.rs`). -/
def getDownloadUrl (kind version build : String) : String :=
  "https://papermc.io/api/v2/projects/" ++ kind ++ "/versions/" ++ version ++
    "/builds/" ++ build ++ "/downloads/" ++ kind ++ "-" ++ version ++ "-" ++ build ++ ".jar"

/-- Whether a Unix path is absolute (begins with `/`). -/
def pathIsAbsolute (p : String) : Bool :=
  match p.data with
  | c :: _ => c = '/'
  | [] => false

/-- Whether a string already ends with the path separator. -/
def endsWithSlash (s : String) : Bool :=
  match s.data.getLast? with
  | some c => c = '/'
  | none => false

/-- Rust `Path::join` on Unix: an absolute right-hand path replaces the
base; otherwise the components are joined with a single separator. -/
def pathJoin (base p : String) : String :=
  if pathIsAbsolute p then p
  else if endsWithSlash base then base ++ p
  else base ++ "/" ++ p

/-- `make_volume_mount` (`objects/mod.rs`): mount the configmap volume at
`Path::new("/config/").join(&co.path)`. -/
def makeVolumeMount (co : ConfigOptions) : VolumeMount :=
  { name := co.name, mountPath := pathJoin "/config/" co.path }

/-- `make_volume` (`objects/mod.rs`): a configmap-backed volume named after
the config entry. -/
def makeVolume (co : ConfigOptions) : Volume :=
  { name := co.name, configMap := some { name := co.name } }

/-- kube `ResourceExt::name_any`: the metadata name, else the generate-name,
else the empty string. -/
def nameAny (meta : MetaData) : String :=
  (meta.name.or meta.generateName).getD ""

/-- `object_to_owner_reference` (`objects/mod.rs`): fails with a
`MyceliumError` when the metadata lacks a name or a uid (name is checked
first, as in the Rust struct literal). -/
def objectToOwnerReference (apiVersion kind : String) (meta : MetaData) :
    Except String OwnerReference := do
  let name ← match meta.name with
    | some n => Except.ok n
    | none => Except.error "failed to get name"
  let uid ← match meta.uid with
    | some u => Except.ok u
    | none => Except.error "failed to get uid"
  Except.ok { apiVersion := apiVersion, kind := kind, name := name, uid := uid }

/-- One of the four child objects a reconcile applies. -/
inductive K8sObject where
  | pdb (p : PodDisruptionBudget)
  | statefulSet (s : StatefulSet)
  | service (s : Service)
  | secret (s : Secret)
deriving Repr, DecidableEq

/-- One server-side-apply patch issued by a reconcile:
`Api::<Kind>::namespaced(client, ns).patch(name, PatchParams::apply(fieldManager), Patch::Apply(object))`. -/
structure PatchCall where
  apiKind : String
  ns : String
  name : String
  fieldManager : String
  object : K8sObject
deriving Repr, DecidableEq

/-- The volume-mount/volume/claim-template assembly of `generic_reconcile`
(`objects/mod.rs` lines 181–202): a claim template is mounted at `/data`
under its metadata name (which is required), else a plain volume is
appended and mounted at `/data`, else only the config volumes exist. -/
def reconcileVolumePlan (container : ContainerOptions)
    (cfgMounts : List VolumeMount) (cfgVolumes : List Volume) :
    Except String (List VolumeMount × List Volume × List PersistentVolumeClaim) :=
  match container.volumeClaimTemplate with
  | some volumeTpl =>
    match volumeTpl.metadata.name with
    | some tplName =>
      Except.ok (cfgMounts ++ [{ name := tplName, mountPath := "/data" }], cfgVolumes, [volumeTpl])
    | none => Except.error "volumeClaimTemplate name"
  | none =>
    match container.volume with
    | some volume =>
      Except.ok (cfgMounts ++ [{ name := volume.name, mountPath := "/data" }],
        cfgVolumes ++ [volume], ([] : List PersistentVolumeClaim))
    | none => Except.ok (cfgMounts, cfgVolumes, [])

/-- The env vector of `generic_reconcile` (`objects/mod.rs` lines 204–231):
the three operator-owned variables prepended to the caller's extras;
`MYCELIUM_FW_TOKEN` is a non-optional secret-key reference to key
`forwarding_token` of the secret named after the CR. -/
def reconcileEnvList (env : List EnvVar) (runner : RunnerOptions) (name : String) : List EnvVar :=
  [{ name := "MYCELIUM_JVM_OPTS", value := runner.jvm, valueFrom := none },
   { name := "MYCELIUM_FW_TOKEN", value := none,
     valueFrom := some (EnvVarSource.mk
       (some (SecretKeySelector.mk "forwarding_token" name (some false)))) },
   { name := "MYCELIUM_RUNNER_JAR_URL",
     value := some (getDownloadUrl runner.jar.type_ runner.jar.version runner.jar.build),
     valueFrom := none }] ++ env

/-- The stateful workload of `generic_reconcile` (`objects/mod.rs` lines
232–274). -/
def reconcileStatefulSet (config : MyceliumConfig) (name : String)
    (ownerReference : OwnerReference) (labels : List (String × String))
    (container : ContainerOptions) (envAll : List EnvVar)
    (plan : List VolumeMount × List Volume × List PersistentVolumeClaim)
    (replicas : Int) : StatefulSet :=
  { metadata := { name := some name, ownerReferences := some [ownerReference] },
    spec := some
      { selector := { matchLabels := some labels },
        serviceName := some name,
        replicas := some replicas,
        template :=
          { metadata := some
              { labels := some labels,
                annots := some [("prometheus.io/port", "9970"), ("prometheus.io/scrape", "true")] },
            spec := some
              { securityContext := container.securityContext,
                containers :=
                  [{ name := name, tty := some true, stdin := some true,
                     image := some config.runnerImage,
                     imagePullPolicy := some "IfNotPresent",
                     resources := container.resources,
                     env := some envAll,
                     volumeMounts := some plan.1 }],
                volumes := some plan.2.1 } },
        volumeClaimTemplates := some plan.2.2 } }

/-- The disruption budget of `generic_reconcile` (`objects/mod.rs` lines
276–295): `maxUnavailable = 0` over the pod labels plus
`mycelium.njha.dev/destroyable = false` (the `BTreeMap` is modelled by its
entry list; entry order is immaterial to selector semantics). -/
def reconcilePdb (name : String) (ownerReference : OwnerReference)
    (labels : List (String × String)) : PodDisruptionBudget :=
  { metadata := { name := some name, ownerReferences := some [ownerReference] },
    spec := some
      { maxUnavailable := some (IntOrString.int 0),
        minAvailable := none,
        selector := some
          { matchLabels := some (labels ++ [("mycelium.njha.dev/destroyable", "false")]),
            matchExpressions := none },
        unhealthyPodEvictionPolicy := none } }

/-- The headless service of `generic_reconcile` (`objects/mod.rs` lines
297–316): `clusterIP = None`, external port 25565, CR-specific target
port. -/
def reconcileService (port : IntOrString) (name : String)
    (ownerReference : OwnerReference) (labels : List (String × String)) : Service :=
  { metadata := { name := some name, ownerReferences := some [ownerReference] },
    spec := some
      { clusterIP := some "None",
        selector := some labels,
        ports := some [{ protocol := some "TCP", port := 25565, targetPort := some port }] } }

/-- The forwarding secret of `generic_reconcile` (`objects/mod.rs` lines
318–331): one `forwarding_token` key holding
`base64(sha224(forwarding_secret ++ ns))`. -/
def reconcileSecret (config : MyceliumConfig) (ns name : String)
    (ownerReference : OwnerReference) : Secret :=
  { metadata := { name := some name, ownerReferences := some [ownerReference] },
    stringData := some [("forwarding_token", forwardingToken config.forwardingSecret ns)] }

/-- The four server-side-apply patches of `generic_reconcile`
(`objects/mod.rs` lines 333–364), in source order: disruption budget,
stateful workload, headless service, secret — all with field manager
`mycelium.njha.dev`. -/
def reconcilePatches (env : List EnvVar) (port : IntOrString) (config : MyceliumConfig)
    (shortname ns name : String) (ownerReference : OwnerReference)
    (container : ContainerOptions) (runner : RunnerOptions) (replicas : Int)
    (plan : List VolumeMount × List Volume × List PersistentVolumeClaim) : List PatchCall :=
  let labels : List (String × String) := [("mycelium.njha.dev/" ++ shortname, name)]
  let envAll := reconcileEnvList env runner name
  [{ apiKind := "PodDisruptionBudget", ns := ns, name := name,
     fieldManager := "mycelium.njha.dev",
     object := K8sObject.pdb (reconcilePdb name ownerReference labels) },
   { apiKind := "StatefulSet", ns := ns, name := name,
     fieldManager := "mycelium.njha.dev",
     object := K8sObject.statefulSet
       (reconcileStatefulSet config name ownerReference labels container envAll plan replicas) },
   { apiKind := "Service", ns := ns, name := name,
     fieldManager := "mycelium.njha.dev",
     object := K8sObject.service (reconcileService port name ownerReference labels) },
   { apiKind := "Secret", ns := ns, name := name,
     fieldManager := "mycelium.njha.dev",
     object := K8sObject.secret (reconcileSecret config ns name ownerReference) }]

/-- `generic_reconcile` (`objects/mod.rs` lines 152–365).

The routine's outputs are the server-side-apply patches it issues, in
order; every fallible step of the source (`?` on namespace, owner
reference, and volume-claim-template name) happens before the first
`.patch` call, so an error means no patch was issued — this is modelled by
the `Except` result carrying the patch list only on success.  The
`state.last_event` timestamp update is a heartbeat write with no effect on
the emitted objects and is not modelled. -/
def genericReconcile (env : List EnvVar) (port : IntOrString) (config : MyceliumConfig)
    (shortname : String) (crdApiVersion crdKind : String) (crdMeta : MetaData)
    (container : ContainerOptions) (runner : RunnerOptions) (replicas : Int) :
    Except String (List PatchCall) := do
  let name := nameAny crdMeta
  let ns ← match crdMeta.namespace_ with
    | some n => Except.ok n
    | none => Except.error "failed to get namespace"
  let baseRef ← objectToOwnerReference crdApiVersion crdKind crdMeta
  let ownerReference : OwnerReference := { baseRef with controller := some true }
  let configs := runner.config.getD []
  let plan ← reconcileVolumePlan container (configs.map makeVolumeMount) (configs.map makeVolume)
  Except.ok (reconcilePatches env port config shortname ns name
    ownerReference container runner replicas plan)

/-! ## Per-kind reconciler environment lists

`helpers/manager.rs` wires `minecraft_set::reconcile` and
`minecraft_proxy::reconcile` to the two controllers; these functions build
the child-pod `env` vectors exactly as those reconcilers do. -/

/-- The env vector of the container built by `minecraft_set::reconcile`
(`minecraft_set.rs` lines 129–149). -/
def mcsetReconcileEnv (mcset : MinecraftSet) (config : MyceliumConfig) : List EnvVar :=
  [{ name := "MYCELIUM_RUNNER_KIND", value := some "game", valueFrom := none },
   { name := "MYCELIUM_FW_TOKEN", value := some config.forwardingSecret, valueFrom := none },
   { name := "MYCELIUM_PLUGINS",
     value := some (String.intercalate "," (mcset.spec.game.plugins.getD [])),
     valueFrom := none },
   { name := "MYCELIUM_RUNNER_JAR_URL",
     value := some (getDownloadUrl mcset.spec.type_ mcset.spec.game.jar.version
       mcset.spec.game.jar.build),
     valueFrom := none },
   { name := "MYCELIUM_JVM_OPTS", value := mcset.spec.game.jvm, valueFrom := none }]

/-- The env vector of the container built by `minecraft_proxy::reconcile`
(`minecraft_proxy.rs` lines 89–172).  `cargoPkgVersion` is the operator's
`CARGO_PKG_VERSION`; `endpointVar` is the value of the operator process's
`MYCELIUM_ENDPOINT` variable read by `env::var` at reconcile time; the
result is `none` when the CR has no namespace (the source `expect`s it). -/
def mcproxyReconcileEnv (mcproxy : MinecraftProxy) (config : MyceliumConfig)
    (cargoPkgVersion : String) (endpointVar : String) : Option (List EnvVar) := do
  let ns ← mcproxy.metadata.namespace_
  let plugins := mcproxy.spec.proxy.plugins.getD [] ++
    ["https://www.ocf.berkeley.edu/~njha/artifacts/mycelium-velocity-plugin-" ++
      cargoPkgVersion ++ "-all.jar"]
  let tags := mcproxy.metadata.labels.getD []
  pure
    [{ name := "MYCELIUM_RUNNER_KIND", value := some "proxy", valueFrom := none },
     { name := "MYCELIUM_FW_TOKEN", value := some config.forwardingSecret, valueFrom := none },
     { name := "MYCELIUM_PLUGINS", value := some (String.intercalate "," plugins),
       valueFrom := none },
     { name := "K8S_NAMESPACE", value := some ns, valueFrom := none },
     { name := "MYCELIUM_ENV",
       value := some ((tags.lookup "mycelium.njha.dev/env").getD "development"),
       valueFrom := none },
     { name := "MYCELIUM_PROXY",
       value := some ((tags.lookup "mycelium.njha.dev/proxy").getD "global"),
       valueFrom := none },
     { name := "MYCELIUM_ENDPOINT", value := some endpointVar, valueFrom := none },
     { name := "MYCELIUM_RUNNER_JAR_URL",
       value := some (getDownloadUrl mcproxy.spec.type_ mcproxy.spec.proxy.jar.version
         mcproxy.spec.proxy.jar.build),
       valueFrom := none },
     { name := "MYCELIUM_JVM_OPTS", value := mcproxy.spec.proxy.jvm, valueFrom := none }]

/-! ## The proxy → sets join (`Manager::get_sets`, `helpers/manager.rs`) -/

/-- `VelocityServerEntry` (`helpers/manager.rs`). -/
structure VelocityServerEntry where
  address : String
  host : Option String
  name : String
  priority : Option Nat
deriving Repr, DecidableEq

/-- Rust `a..b` over `i32`: the integers from `a` (inclusive) to `b`
(exclusive); empty whenever `b ≤ a`, in particular for negative `b` with
`a = 0`. -/
def rustRangeI32 (a b : Int) : List Int :=
  (List.range (b - a).toNat).map fun i => a + Int.ofNat i

/-- The equality-based selector string `get_sets` builds from the proxy's
`selector.matchLabels`: each entry formatted `k=v`, joined with commas
(`helpers/manager.rs` lines 135–138). -/
def selectorString (sel : Option LabelSelector) : String :=
  String.intercalate ","
    (((sel.getD {}).matchLabels.getD []).map fun i => i.1 ++ "=" ++ i.2)

/-- Split a character list at every occurrence of `sep` (the single-char
analogue of `String.splitOn`, written with structural recursion). -/
def splitOnChar (sep : Char) : List Char → List (List Char)
  | [] => [[]]
  | c :: rest =>
    let r := splitOnChar sep rest
    if c = sep then [] :: r
    else
      match r with
      | h :: t => (c :: h) :: t
      | [] => [[c]]

/-- Split a string at every occurrence of the character `sep`. -/
def splitString (sep : Char) (s : String) : List String :=
  (splitOnChar sep s.data).map String.mk

/-- The requirements the Kubernetes API server reads out of an
equality-based `labelSelector` query string: the empty string imposes no
requirement (an unrestricted list), otherwise each comma-separated `k=v`
clause is one equality requirement.  Only well-formed `k=v` clauses arise
from `selectorString` (label keys and values cannot contain `,` or `=`);
a clause without `=` is carried as a degenerate requirement. -/
def selectorRequirements (s : String) : List (String × String) :=
  if s = "" then []
  else (splitString ',' s).map fun clause =>
    match splitString '=' clause with
    | [k, v] => (k, v)
    | _ => (clause, "")

/-- Equality-requirement matching: every requirement key must be present in
the label map with exactly the required value (a pod or object lacking the
key does not match). -/
def matchesRequirements (reqs : List (String × String)) (lbls : List (String × String)) : Bool :=
  reqs.all fun r => lbls.lookup r.1 == some r.2

/-- The Kubernetes list call `mcset_api.list(&ListParams::default().labels(&label_selector))`:
returns, in listing order, the sets whose labels satisfy every requirement
of the selector string. -/
def kubeListSets (sets : List MinecraftSet) (selStr : String) : List MinecraftSet :=
  sets.filter fun s => matchesRequirements (selectorRequirements selStr) (s.metadata.labels.getD [])

/-- The entries one MinecraftSet contributes to the join
(`helpers/manager.rs` lines 143–161): one `VelocityServerEntry` per
`val ∈ 0..spec.replicas`.  The source `unwrap`s the set's metadata name and
namespace inside the per-entry closure; `none` models that panic, and is
never reached when the range is empty. -/
def setEntries (set : MinecraftSet) : Option (List VelocityServerEntry) :=
  let proxy := set.spec.proxy.getD {}
  (rustRangeI32 0 set.spec.replicas).mapM fun val => do
    let nm ← set.metadata.name
    let nsp ← set.metadata.namespace_
    pure
      { address := nm ++ "-" ++ toString val ++ "." ++ nm ++ "." ++ nsp ++ ".svc.cluster.local",
        host := proxy.hostname,
        name := nm ++ "-" ++ toString val,
        priority := proxy.priority }

/-- `Manager::get_sets` (`helpers/manager.rs` lines 130–162), given the
proxy it `get`s and the MinecraftSets present in the request namespace:
build the selector string from the proxy's `matchLabels`, list the matching
sets, and flatten their per-replica entries. -/
def getSets (proxy : MinecraftProxy) (sets : List MinecraftSet) :
    Option (List VelocityServerEntry) := do
  let labelSelector := selectorString proxy.spec.selector
  let items := kubeListSets sets labelSelector
  let entryLists ← items.mapM setEntries
  pure entryLists.flatten

/-! ## Specification-side definitions

Written from the specification's words, to be compared with the
source-derived functions above. -/

/-- The entries the specification (§4.4) says one matching set
contributes: one `VelocityServerEntry` per replica index `i ∈ [0, replicas)`
with address `{set}-{i}.{set}.{ns}.svc.cluster.local`, name `{set}-{i}`,
host the set's `proxy.hostname` and priority the set's `proxy.priority`,
in ascending index order. -/
def specSetEntries (ns : String) (set : MinecraftSet) : List VelocityServerEntry :=
  let nm := set.metadata.name.getD ""
  let proxy := set.spec.proxy.getD {}
  (List.range set.spec.replicas.toNat).map fun i =>
    { address := nm ++ "-" ++ toString i ++ "." ++ nm ++ "." ++ ns ++ ".svc.cluster.local",
      host := proxy.hostname,
      name := nm ++ "-" ++ toString i,
      priority := proxy.priority }

/-- The join result the specification describes: the per-set entry lists
flattened in the natural order of the set listing. -/
def specJoinEntries (ns : String) (sets : List MinecraftSet) : List VelocityServerEntry :=
  sets.flatMap (specSetEntries ns)

/-! ## Projections used by the theorems -/

/-- The first stateful workload among the patches. -/
def stsOf (ps : List PatchCall) : Option StatefulSet :=
  ps.foldr (fun p acc => match p.object with | K8sObject.statefulSet s => some s | _ => acc) none

/-- The first disruption budget among the patches. -/
def pdbOf (ps : List PatchCall) : Option PodDisruptionBudget :=
  ps.foldr (fun p acc => match p.object with | K8sObject.pdb s => some s | _ => acc) none

/-- The first secret among the patches. -/
def secretOf (ps : List PatchCall) : Option Secret :=
  ps.foldr (fun p acc => match p.object with | K8sObject.secret s => some s | _ => acc) none

/-- The labels of the workload's pod template. -/
def stsTemplateLabels (s : StatefulSet) : List (String × String) :=
  match s.spec with
  | some sp =>
    match sp.template.metadata with
    | some m => m.labels.getD []
    | none => []
  | none => []

/-- The containers of the workload's pod template. -/
def stsContainers (s : StatefulSet) : List Container :=
  match s.spec with
  | some sp =>
    match sp.template.spec with
    | some podSpec => podSpec.containers
    | none => []
  | none => []

/-- Env list of the first container of the workload. -/
def stsEnv (s : StatefulSet) : List EnvVar :=
  match stsContainers s with
  | c :: _ => c.env.getD []
  | [] => []

/-- Volume mounts of the first container of the workload. -/
def stsMounts (s : StatefulSet) : List VolumeMount :=
  match stsContainers s with
  | c :: _ => c.volumeMounts.getD []
  | [] => []

/-- Volumes of the workload's pod template. -/
def stsVolumes (s : StatefulSet) : List Volume :=
  match s.spec with
  | some sp =>
    match sp.template.spec with
    | some podSpec => podSpec.volumes.getD []
    | none => []
  | none => []

/-- The match-labels of the disruption budget's selector. -/
def pdbSelectorLabels (p : PodDisruptionBudget) : List (String × String) :=
  match p.spec with
  | some sp =>
    match sp.selector with
    | some sel => sel.matchLabels.getD []
    | none => []
  | none => []

/-- The budget's `maxUnavailable`. -/
def pdbMaxUnavailableOf (p : PodDisruptionBudget) : Option IntOrString :=
  match p.spec with
  | some sp => sp.maxUnavailable
  | none => none

/-- The `string_data` entries of a secret. -/
def secretData (s : Secret) : List (String × String) :=
  s.stringData.getD []

/-- The (kind, field-manager) trace of a patch list. -/
def patchKindManagers (ps : List PatchCall) : List (String × String) :=
  ps.map fun p => (p.apiKind, p.fieldManager)

/-- Find an env var by name. -/
def envFind (l : List EnvVar) (nm : String) : Option EnvVar :=
  l.find? fun e => e.name == nm

/-! ## Concrete fixtures used by witnesses and counterexamples -/

/-- Concrete operator configuration. -/
def wConfig : MyceliumConfig :=
  { forwardingSecret := "global-secret", runnerImage := "harbor.ocf.berkeley.edu/mycelium/runner:0.1.0" }

/-- Concrete jar triple (spec scenario 1). -/
def wJar : VersionTriple := { type_ := "paper", version := "1.19.3", build := "123" }

/-- Concrete runner options. -/
def wRunner : RunnerOptions := { jar := wJar }

/-- Concrete well-formed CR metadata. -/
def wMeta : MetaData := { name := some "foo", namespace_ := some "default", uid := some "uid-1" }

/-- Concrete CR metadata lacking a namespace. -/
def wMetaNoNs : MetaData := { name := some "foo", uid := some "uid-1" }

/-- A concrete successful generic reconcile (spec scenario 1: paper
1.19.3/123, replicas 2, set `foo` in `default`). -/
def wReconcile : Except String (List PatchCall) :=
  genericReconcile [] (IntOrString.int 25565) wConfig "mcset" "mycelium.njha.dev/v1alpha1"
    "MinecraftSet" wMeta {} wRunner 2

/-- Runner options with one relative config path. -/
def wRunnerRelCfg : RunnerOptions :=
  { jar := wJar, config := some [{ name := "server-props", path := "server.properties" }] }

/-- Generic reconcile with the relative config path. -/
def wReconcileRelCfg : Except String (List PatchCall) :=
  genericReconcile [] (IntOrString.int 25565) wConfig "mcset" "mycelium.njha.dev/v1alpha1"
    "MinecraftSet" wMeta {} wRunnerRelCfg 2

/-- Runner options with one absolute config path. -/
def wRunnerAbsCfg : RunnerOptions :=
  { jar := wJar, config := some [{ name := "cfg", path := "/abs/path" }] }

/-- Generic reconcile with the absolute config path. -/
def wReconcileAbsCfg : Except String (List PatchCall) :=
  genericReconcile [] (IntOrString.int 25565) wConfig "mcset" "mycelium.njha.dev/v1alpha1"
    "MinecraftSet" wMeta {} wRunnerAbsCfg 2

/-- Forced-host options of set `a` (spec scenario 3). -/
def wProxyOptsA : ProxyOptions := { hostname := some "a.example" }

/-- Set `a`: replicas 2, labelled `tier=prod`, forced host `a.example`. -/
def wSetA : MinecraftSet :=
  { metadata := { name := some "a", namespace_ := some "default", uid := some "uid-a",
                  labels := some [("tier", "prod")] },
    spec := { replicas := 2, type_ := "paper", game := wRunner, container := {},
              proxy := some wProxyOptsA } }

/-- Set `b`: replicas 1, labelled `tier=prod`, no proxy options. -/
def wSetB : MinecraftSet :=
  { metadata := { name := some "b", namespace_ := some "default", uid := some "uid-b",
                  labels := some [("tier", "prod")] },
    spec := { replicas := 1, type_ := "paper", game := wRunner, container := {} } }

/-- A set with negative replicas. -/
def wSetNeg : MinecraftSet :=
  { metadata := { name := some "n", namespace_ := some "default", uid := some "uid-n",
                  labels := some [("tier", "prod")] },
    spec := { replicas := -5, type_ := "paper", game := wRunner, container := {} } }

/-- Selector `{tier=prod}`. -/
def wSelProd : LabelSelector := { matchLabels := some [("tier", "prod")] }

/-- Proxy `p` selecting `tier=prod` (spec scenario 3). -/
def wProxyP : MinecraftProxy :=
  { metadata := { name := some "p", namespace_ := some "default", uid := some "uid-p" },
    spec := { replicas := 1, type_ := "velocity", proxy := wRunner, container := {},
              selector := some wSelProd } }

/-- A selector with empty `matchLabels`. -/
def wSelEmpty : LabelSelector := { matchLabels := some [] }

/-- Proxy with an empty `matchLabels` selector. -/
def wProxyEmptySel : MinecraftProxy :=
  { metadata := { name := some "p", namespace_ := some "default", uid := some "uid-p" },
    spec := { replicas := 1, type_ := "velocity", proxy := wRunner, container := {},
              selector := some wSelEmpty } }

/-- A proxy spec shared by the determinism fixtures. -/
def wProxySpec : MinecraftProxySpec :=
  { replicas := 1, type_ := "velocity", proxy := wRunner, container := {} }

/-- Proxy CR labelled `mycelium.njha.dev/env=production`. -/
def wProxyLblProd : MinecraftProxy :=
  { metadata := { name := some "bar", namespace_ := some "default", uid := some "uid-2",
                  labels := some [("mycelium.njha.dev/env", "production")] },
    spec := wProxySpec }

/-- The same proxy CR with no labels. -/
def wProxyLblNone : MinecraftProxy :=
  { metadata := { name := some "bar", namespace_ := some "default", uid := some "uid-2" },
    spec := wProxySpec }

/-- A concrete MinecraftSet CR for the env-injection facts. -/
def wMcset : MinecraftSet :=
  { metadata := wMeta,
    spec := { replicas := 2, type_ := "paper", game := wRunner, container := {} } }

/-- The same MinecraftSet spec under different metadata (name, uid,
labels). -/
def wMcsetAltMeta : MinecraftSet :=
  { metadata := { name := some "zzz", namespace_ := some "elsewhere", uid := some "u-z",
                  labels := some [("x", "y")] },
    spec := wMcset.spec }

/-- The same MinecraftProxy spec under different metadata (name, uid), with
the same namespace and no labels. -/
def wProxyAltMeta : MinecraftProxy :=
  { metadata := { name := some "other", namespace_ := some "default", uid := some "u-o" },
    spec := wProxySpec }

end Mycelium

open Mycelium

/-! ## Shared helper lemmas -/

/-- `mapM` over `Option` succeeds pointwise. -/
theorem mapM_option_of_forall {α β : Type} (f : α → Option β) (g : α → β) :
    ∀ l : List α, (∀ x ∈ l, f x = some (g x)) → l.mapM f = some (l.map g) := by
  intro l
  induction l with
  | nil => intro _; rfl
  | cons a t ih =>
    intro h
    rw [List.mapM_cons, h a (by simp), ih (fun x hx => h x (by simp [hx]))]
    rfl

/-- `0..r` over `i32` is the natural range cast to `Int`. -/
theorem rustRangeI32_zero (r : Int) :
    rustRangeI32 0 r = (List.range r.toNat).map Int.ofNat := by
  unfold rustRangeI32
  rw [Int.sub_zero]
  exact List.map_congr_left fun i _ => Int.zero_add (Int.ofNat i)

/-- A well-formed set's join contribution is exactly what the specification
describes. -/
theorem setEntries_eq_spec (s : MinecraftSet) (ns nm : String)
    (hn : s.metadata.name = some nm) (hns : s.metadata.namespace_ = some ns) :
    setEntries s = some (specSetEntries ns s) := by
  unfold setEntries specSetEntries
  simp only [rustRangeI32_zero, Option.getD_some]
  rw [mapM_option_of_forall
    (fun val => do
      let nm' ← s.metadata.name
      let nsp ← s.metadata.namespace_
      pure
        ({ address := nm' ++ "-" ++ toString val ++ "." ++ nm' ++ "." ++ nsp ++ ".svc.cluster.local",
           host := (s.spec.proxy.getD {}).hostname,
           name := nm' ++ "-" ++ toString val,
           priority := (s.spec.proxy.getD {}).priority } : VelocityServerEntry))
    (fun (val : Int) =>
      ({ address := nm ++ "-" ++ toString val ++ "." ++ nm ++ "." ++ ns ++ ".svc.cluster.local",
         host := (s.spec.proxy.getD {}).hostname,
         name := nm ++ "-" ++ toString val,
         priority := (s.spec.proxy.getD {}).priority } : VelocityServerEntry))
    _ (fun x _ => by rw [hn, hns]; rfl)]
  simp only [List.map_map, hn, Option.getD_some]
  exact congrArg some (List.map_congr_left fun i _ => rfl)

/-- For sets whose metadata carries a name and the request namespace, the
join returns exactly the specification-side entries of the selected sets. -/
theorem getSets_eq_spec (proxy : MinecraftProxy) (sets : List MinecraftSet) (ns : String)
    (hwf : ∀ s ∈ sets, s.metadata.name.isSome ∧ s.metadata.namespace_ = some ns) :
    getSets proxy sets =
      some (specJoinEntries ns (kubeListSets sets (selectorString proxy.spec.selector))) := by
  have hsub : ∀ s ∈ kubeListSets sets (selectorString proxy.spec.selector), s ∈ sets := by
    intro s hs
    exact (List.mem_filter.mp hs).1
  have hmapM : (kubeListSets sets (selectorString proxy.spec.selector)).mapM setEntries =
      some ((kubeListSets sets (selectorString proxy.spec.selector)).map (specSetEntries ns)) := by
    refine mapM_option_of_forall _ _ _ fun s hs => ?_
    obtain ⟨hn, hns⟩ := hwf s (hsub s hs)
    obtain ⟨nm, hnm⟩ := Option.isSome_iff_exists.mp hn
    exact setEntries_eq_spec s ns nm hnm hns
  show (do
      let entryLists ← (kubeListSets sets (selectorString proxy.spec.selector)).mapM setEntries
      pure entryLists.flatten : Option (List VelocityServerEntry)) =
    some (specJoinEntries ns (kubeListSets sets (selectorString proxy.spec.selector)))
  rw [hmapM]
  exact congrArg some (List.flatMap_def _ _).symm

/-! ## C2 — join correctness -/

/-- C2: for every MinecraftProxy and list of MinecraftSets in the request
namespace (each carrying a name and that namespace), `get_sets` returns
exactly the specification's join: for each selected set, one entry per
replica index `i ∈ [0, replicas)` with address
`{set}-{i}.{set}.{ns}.svc.cluster.local`, name `{set}-{i}`, host the set's
`proxy.hostname` and priority the set's `proxy.priority`, in listing order
then ascending index; the total count is the sum of the selected sets'
replica counts, and a set with `replicas = 0` contributes zero entries. -/
theorem C2_join_correctness (proxy : MinecraftProxy) (sets : List MinecraftSet) (ns : String)
    (hwf : ∀ s ∈ sets, s.metadata.name.isSome ∧ s.metadata.namespace_ = some ns) :
    getSets proxy sets =
      some (specJoinEntries ns (kubeListSets sets (selectorString proxy.spec.selector))) ∧
    (specJoinEntries ns (kubeListSets sets (selectorString proxy.spec.selector))).length =
      ((kubeListSets sets (selectorString proxy.spec.selector)).map
        fun s => s.spec.replicas.toNat).sum := by
  refine ⟨getSets_eq_spec proxy sets ns hwf, ?_⟩
  unfold specJoinEntries
  rw [List.length_flatMap]
  exact congrArg List.sum (List.map_congr_left fun s _ => by
    simp [specSetEntries])

/-- C2 witness: spec scenario 3 — sets `a` (replicas 2, host `a.example`)
and `b` (replicas 1), proxy `p` selecting `tier=prod` in `default`. -/
theorem C2_join_correctness_witness :
    (getSets wProxyP [wSetA, wSetB] =
      some (specJoinEntries "default"
        (kubeListSets [wSetA, wSetB] (selectorString wProxyP.spec.selector))) ∧
    (specJoinEntries "default"
        (kubeListSets [wSetA, wSetB] (selectorString wProxyP.spec.selector))).length =
      ((kubeListSets [wSetA, wSetB] (selectorString wProxyP.spec.selector)).map
        fun s => s.spec.replicas.toNat).sum) ∧
    specJoinEntries "default"
        (kubeListSets [wSetA, wSetB] (selectorString wProxyP.spec.selector)) =
      [{ address := "a-0.a.default.svc.cluster.local", host := some "a.example",
         name := "a-0", priority := none },
       { address := "a-1.a.default.svc.cluster.local", host := some "a.example",
         name := "a-1", priority := none },
       { address := "b-0.b.default.svc.cluster.local", host := none,
         name := "b-0", priority := none }] :=
  ⟨C2_join_correctness wProxyP [wSetA, wSetB] "default" (by decide), by decide⟩

/-! ## C3 — empty selector -/

/-- C3 counterexample: a proxy whose `selector.matchLabels` is the empty
map does not get an empty join result — with sets `a` and `b` present the
query returns the same non-empty list as a matching selector would. -/
theorem C3_counterexample :
    (wProxyEmptySel.spec.selector.getD {}).matchLabels = some [] ∧
    getSets wProxyEmptySel [wSetA, wSetB] ≠ some [] ∧
    getSets wProxyEmptySel [wSetA, wSetB] = getSets wProxyP [wSetA, wSetB] := by
  refine ⟨rfl, by decide, by decide⟩

/-- C3 (amended): empty (or absent) `selector.matchLabels` produces the
empty selector string, which the Kubernetes list API treats as
unrestricted — every MinecraftSet in the namespace is selected and the
join returns the entries of all of them, not the empty list. -/
theorem C3_empty_selector_selects_all (proxy : MinecraftProxy) (sets : List MinecraftSet)
    (ns : String)
    (hsel : (proxy.spec.selector.getD {}).matchLabels.getD [] = [])
    (hwf : ∀ s ∈ sets, s.metadata.name.isSome ∧ s.metadata.namespace_ = some ns) :
    kubeListSets sets (selectorString proxy.spec.selector) = sets ∧
    getSets proxy sets = some (specJoinEntries ns sets) := by
  have hstr : selectorString proxy.spec.selector = "" := by
    unfold selectorString
    rw [hsel]
    rfl
  have hlist : kubeListSets sets (selectorString proxy.spec.selector) = sets := by
    rw [hstr]
    unfold kubeListSets
    simp [selectorRequirements, matchesRequirements]
  refine ⟨hlist, ?_⟩
  have := getSets_eq_spec proxy sets ns hwf
  rwa [hlist] at this

/-- C3 witness for the amended statement: the empty-selector proxy with
sets `a` and `b` present receives all three entries. -/
theorem C3_empty_selector_witness :
    (kubeListSets [wSetA, wSetB] (selectorString wProxyEmptySel.spec.selector) =
      [wSetA, wSetB] ∧
    getSets wProxyEmptySel [wSetA, wSetB] =
      some (specJoinEntries "default" [wSetA, wSetB])) ∧
    specJoinEntries "default" [wSetA, wSetB] ≠ [] :=
  ⟨C3_empty_selector_selects_all wProxyEmptySel [wSetA, wSetB] "default" rfl (by decide),
   by decide⟩

/-! ## C10 — negative replicas -/

/-- C10: `replicas` is a plain `i32` and `get_sets` builds `0..replicas`
per set, so a set with negative replicas contributes an empty range — zero
entries, no failure — indistinguishable in the join result from
`replicas = 0`. -/
theorem C10_negative_replicas (s : MinecraftSet) (h : s.spec.replicas < 0) :
    setEntries s = some [] ∧
    setEntries s = setEntries { s with spec := { s.spec with replicas := 0 } } := by
  have h0 : s.spec.replicas.toNat = 0 := Int.toNat_of_nonpos (le_of_lt h)
  have e1 : setEntries s = some [] := by
    unfold setEntries
    rw [rustRangeI32_zero, h0]
    rfl
  have e2 : setEntries { s with spec := { s.spec with replicas := 0 } } = some [] := by
    unfold setEntries
    rw [rustRangeI32_zero]
    rfl
  exact ⟨e1, e1.trans e2.symm⟩

/-- C10 witness: the concrete set with `replicas = -5` contributes zero
entries and the full join over it succeeds with the empty list. -/
theorem C10_negative_replicas_witness :
    (setEntries wSetNeg = some [] ∧
     setEntries wSetNeg = setEntries { wSetNeg with spec := { wSetNeg.spec with replicas := 0 } }) ∧
    getSets wProxyP [wSetNeg] = some [] :=
  ⟨C10_negative_replicas wSetNeg (by decide), by decide⟩

/-! ## Helpers for the generic-reconcile claims -/

/-- UTF-8 encoding distributes over string concatenation, so hashing
`format!("{}{}", s, n)` hashes the byte concatenation `s ‖ n`. -/
theorem utf8Bytes_append (s t : String) :
    utf8Bytes (s ++ t) = utf8Bytes s ++ utf8Bytes t := by
  unfold utf8Bytes
  rw [String.data_append, List.flatMap_append]

/-- The token the code derives equals the specification's
`base64(SHA-224(s ‖ n))`. -/
theorem forwardingToken_eq_spec (s n : String) :
    forwardingToken s n = specForwardingToken s n := by
  unfold forwardingToken specForwardingToken
  rw [utf8Bytes_append]

/-- Success analysis of `generic_reconcile`: an `ok` result implies the CR
had namespace, name and uid, the volume plan succeeded, and the patches are
exactly the four built ones. -/
theorem genericReconcile_ok_elim {env : List EnvVar} {port : IntOrString}
    {config : MyceliumConfig} {shortname apiV kindK : String} {meta : MetaData}
    {container : ContainerOptions} {runner : RunnerOptions} {replicas : Int}
    {ps : List PatchCall}
    (h : genericReconcile env port config shortname apiV kindK meta container runner replicas =
      Except.ok ps) :
    ∃ ns nm uid plan,
      meta.namespace_ = some ns ∧ meta.name = some nm ∧ meta.uid = some uid ∧
      reconcileVolumePlan container ((runner.config.getD []).map makeVolumeMount)
        ((runner.config.getD []).map makeVolume) = Except.ok plan ∧
      ps = reconcilePatches env port config shortname ns nm
        { apiVersion := apiV, kind := kindK, name := nm, uid := uid, controller := some true }
        container runner replicas plan := by
  unfold genericReconcile objectToOwnerReference at h
  cases hns : meta.namespace_ with
  | none => rw [hns] at h; simp [bind, Except.bind] at h
  | some ns =>
    rw [hns] at h
    cases hnm : meta.name with
    | none => rw [hnm] at h; simp [bind, Except.bind] at h
    | some nm =>
      rw [hnm] at h
      have hname : nameAny meta = nm := by
        unfold nameAny
        rw [hnm]
        rfl
      cases huid : meta.uid with
      | none => rw [huid] at h; simp [bind, Except.bind] at h
      | some uid =>
        rw [huid] at h
        simp only [bind, Except.bind] at h
        cases hplan : reconcileVolumePlan container ((runner.config.getD []).map makeVolumeMount)
            ((runner.config.getD []).map makeVolume) with
        | error e => rw [hplan] at h; simp at h
        | ok plan =>
          rw [hplan] at h
          simp only [Except.ok.injEq] at h
          rw [hname] at h
          exact ⟨ns, nm, uid, plan, rfl, rfl, rfl, rfl, h.symm⟩

/-! ## C1 — forwarding-token derivation -/

/-- C1: on every successful generic reconcile of a CR in namespace `ns`,
the emitted secret's string data is exactly the single key
`forwarding_token` holding `base64(SHA-224(forwarding_secret ‖ ns))` — a
pure function of the global secret and the namespace alone, so any CR in
the same namespace gets the same token; and (at concrete inputs) distinct
namespaces give distinct tokens. -/
theorem C1_token_derivation (env : List EnvVar) (port : IntOrString)
    (config : MyceliumConfig) (shortname apiV kindK : String) (meta : MetaData)
    (container : ContainerOptions) (runner : RunnerOptions) (replicas : Int)
    (ns : String) (ps : List PatchCall)
    (hns : meta.namespace_ = some ns)
    (hok : genericReconcile env port config shortname apiV kindK meta container runner replicas =
      Except.ok ps) :
    (∃ sec : Secret, secretOf ps = some sec ∧
      secretData sec = [("forwarding_token", specForwardingToken config.forwardingSecret ns)]) ∧
    specForwardingToken "forwarding-secret" "alpha" ≠
      specForwardingToken "forwarding-secret" "beta" := by
  obtain ⟨nsx, nm, uid, plan, hnsx, hnm, huid, hplan, hps⟩ := genericReconcile_ok_elim hok
  rw [hns] at hnsx
  injection hnsx with hnseq
  subst hnseq
  subst hps
  refine ⟨⟨reconcileSecret config ns nm
      { apiVersion := apiV, kind := kindK, name := nm, uid := uid, controller := some true },
    rfl, ?_⟩, by decide⟩
  simp [reconcileSecret, secretData, forwardingToken_eq_spec]

/-- C1 witness: the concrete reconcile of set `foo` in `default` emits the
derived token for (`global-secret`, `default`). -/
theorem C1_token_derivation_witness :
    ∃ ps, wReconcile = Except.ok ps ∧
      ((∃ sec : Secret, secretOf ps = some sec ∧
        secretData sec =
          [("forwarding_token", specForwardingToken wConfig.forwardingSecret "default")]) ∧
      specForwardingToken "forwarding-secret" "alpha" ≠
        specForwardingToken "forwarding-secret" "beta") :=
  ⟨_, rfl, C1_token_derivation [] (IntOrString.int 25565) wConfig "mcset"
    "mycelium.njha.dev/v1alpha1" "MinecraftSet" wMeta {} wRunner 2 "default" _ rfl rfl⟩

/-! ## C6 — patch order and field manager -/

/-- C6: every successful generic reconcile issues exactly four
server-side-apply patches, in the order disruption budget → stateful
workload → headless service → secret, each under field manager
`mycelium.njha.dev`. -/
theorem C6_patch_order (env : List EnvVar) (port : IntOrString)
    (config : MyceliumConfig) (shortname apiV kindK : String) (meta : MetaData)
    (container : ContainerOptions) (runner : RunnerOptions) (replicas : Int)
    (ps : List PatchCall)
    (hok : genericReconcile env port config shortname apiV kindK meta container runner replicas =
      Except.ok ps) :
    patchKindManagers ps =
      [("PodDisruptionBudget", "mycelium.njha.dev"), ("StatefulSet", "mycelium.njha.dev"),
       ("Service", "mycelium.njha.dev"), ("Secret", "mycelium.njha.dev")] := by
  obtain ⟨ns, nm, uid, plan, _, _, _, _, hps⟩ := genericReconcile_ok_elim hok
  subst hps
  rfl

/-- C6 witness: the concrete reconcile's patch trace. -/
theorem C6_patch_order_witness :
    ∃ ps, wReconcile = Except.ok ps ∧
      patchKindManagers ps =
        [("PodDisruptionBudget", "mycelium.njha.dev"), ("StatefulSet", "mycelium.njha.dev"),
         ("Service", "mycelium.njha.dev"), ("Secret", "mycelium.njha.dev")] :=
  ⟨_, rfl, C6_patch_order [] (IntOrString.int 25565) wConfig "mcset"
    "mycelium.njha.dev/v1alpha1" "MinecraftSet" wMeta {} wRunner 2 _ rfl⟩

/-! ## C9 — missing namespace/name/uid -/

/-- C9: a CR lacking namespace, name or uid makes the generic reconcile
return the corresponding typed structural error; all three checks precede
the first `.patch` call, so no child object is applied on such an
attempt (an `error` result carries no patches). -/
theorem C9_missing_meta_error (env : List EnvVar) (port : IntOrString)
    (config : MyceliumConfig) (shortname apiV kindK : String) (meta : MetaData)
    (container : ContainerOptions) (runner : RunnerOptions) (replicas : Int)
    (hbad : meta.namespace_ = none ∨ meta.name = none ∨ meta.uid = none) :
    genericReconcile env port config shortname apiV kindK meta container runner replicas =
      Except.error "failed to get namespace" ∨
    genericReconcile env port config shortname apiV kindK meta container runner replicas =
      Except.error "failed to get name" ∨
    genericReconcile env port config shortname apiV kindK meta container runner replicas =
      Except.error "failed to get uid" := by
  rcases hbad with hns | hnm | huid
  · exact Or.inl (by simp [genericReconcile, hns, bind, Except.bind])
  · cases hns : meta.namespace_ with
    | none => exact Or.inl (by simp [genericReconcile, hns, bind, Except.bind])
    | some ns =>
      exact Or.inr (Or.inl (by
        simp [genericReconcile, objectToOwnerReference, hns, hnm, bind, Except.bind]))
  · cases hns : meta.namespace_ with
    | none => exact Or.inl (by simp [genericReconcile, hns, bind, Except.bind])
    | some ns =>
      cases hnm : meta.name with
      | none =>
        exact Or.inr (Or.inl (by
          simp [genericReconcile, objectToOwnerReference, hns, hnm, bind, Except.bind]))
      | some nm =>
        exact Or.inr (Or.inr (by
          simp [genericReconcile, objectToOwnerReference, hns, hnm, huid, bind, Except.bind]))

/-- C9 witness: a CR without a namespace is rejected with the namespace
error. -/
theorem C9_missing_meta_error_witness :
    genericReconcile [] (IntOrString.int 25565) wConfig "mcset" "mycelium.njha.dev/v1alpha1"
      "MinecraftSet" wMetaNoNs {} wRunner 2 = Except.error "failed to get namespace" ∨
    genericReconcile [] (IntOrString.int 25565) wConfig "mcset" "mycelium.njha.dev/v1alpha1"
      "MinecraftSet" wMetaNoNs {} wRunner 2 = Except.error "failed to get name" ∨
    genericReconcile [] (IntOrString.int 25565) wConfig "mcset" "mycelium.njha.dev/v1alpha1"
      "MinecraftSet" wMetaNoNs {} wRunner 2 = Except.error "failed to get uid" :=
  C9_missing_meta_error [] (IntOrString.int 25565) wConfig "mcset" "mycelium.njha.dev/v1alpha1"
    "MinecraftSet" wMetaNoNs {} wRunner 2 (Or.inl rfl)

/-! ## C4 — eviction protection gap -/

/-- C4 (code bug): at the concrete reconcile of set `foo`, the emitted
budget has `maxUnavailable = 0` and selector = pod labels plus
`mycelium.njha.dev/destroyable = false`, but the pod template's labels
carry no `destroyable` key at all, so the budget's selector does not match
the pods the workload creates — the budget does not cover them and cannot
deny their eviction, contrary to the claim. -/
theorem C4_budget_does_not_cover_pods :
    ∃ ps pdb sts, wReconcile = Except.ok ps ∧ pdbOf ps = some pdb ∧ stsOf ps = some sts ∧
      pdbSelectorLabels pdb =
        [("mycelium.njha.dev/mcset", "foo"), ("mycelium.njha.dev/destroyable", "false")] ∧
      pdbMaxUnavailableOf pdb = some (IntOrString.int 0) ∧
      stsTemplateLabels sts = [("mycelium.njha.dev/mcset", "foo")] ∧
      (stsTemplateLabels sts).lookup "mycelium.njha.dev/destroyable" = none ∧
      matchesRequirements (pdbSelectorLabels pdb) (stsTemplateLabels sts) = false := by
  refine ⟨_, _, _, rfl, rfl, rfl, ?_, ?_, ?_, ?_, ?_⟩ <;> decide

/-! ## C7 — config volumes and mount paths -/

/-- Joining under `/config/` keeps relative paths below the directory and
lets an absolute path replace it. -/
theorem pathJoin_config (p : String) :
    pathJoin "/config/" p = if pathIsAbsolute p then p else "/config/" ++ p := by
  unfold pathJoin
  rw [show endsWithSlash "/config/" = true from rfl]
  simp

/-- C7 counterexample: a `runner.config` entry whose `path` is absolute is
not mounted at `/config/<path>` — `Path::join` discards the base, and the
emitted mount path is the absolute path itself. -/
theorem C7_counterexample :
    ∃ ps sts, wReconcileAbsCfg = Except.ok ps ∧ stsOf ps = some sts ∧
      stsMounts sts = [{ name := "cfg", mountPath := "/abs/path" }] ∧
      "/abs/path" ≠ "/config/" ++ "/abs/path" := by
  refine ⟨_, _, rfl, rfl, ?_, ?_⟩ <;> decide

/-- C7 (amended): with no data volume configured, every `runner.config`
entry `{name, path}` becomes a ConfigMap-backed volume named `name`, and a
mount whose path is `/config/<path>` when `path` is relative, and `path`
itself when `path` is absolute (Rust `Path::join` replaces the base in that
case). -/
theorem C7_config_mount_paths (env : List EnvVar) (port : IntOrString)
    (config : MyceliumConfig) (shortname apiV kindK : String) (meta : MetaData)
    (container : ContainerOptions) (runner : RunnerOptions) (replicas : Int)
    (cs : List ConfigOptions) (ps : List PatchCall) (sts : StatefulSet)
    (hvct : container.volumeClaimTemplate = none) (hvol : container.volume = none)
    (hcfg : runner.config = some cs)
    (hok : genericReconcile env port config shortname apiV kindK meta container runner replicas =
      Except.ok ps)
    (hsts : stsOf ps = some sts) :
    stsMounts sts = cs.map (fun co =>
      { name := co.name,
        mountPath := if pathIsAbsolute co.path then co.path else "/config/" ++ co.path }) ∧
    stsVolumes sts = cs.map fun co =>
      ({ name := co.name, configMap := some { name := co.name } } : Volume) := by
  obtain ⟨ns, nm, uid, plan, hnsx, hnm, huid, hplan, hps⟩ := genericReconcile_ok_elim hok
  subst hps
  rw [hcfg] at hplan
  simp only [reconcileVolumePlan, hvct, hvol, Option.getD_some, Except.ok.injEq] at hplan
  injection hsts with hsts2
  subst hsts2
  constructor
  · show plan.1 = _
    rw [← hplan]
    exact List.map_congr_left fun co _ => by
      unfold makeVolumeMount
      rw [pathJoin_config]
  · show plan.2.1 = _
    rw [← hplan]
    exact List.map_congr_left fun co _ => rfl

/-- C7 witness: a relative path `server.properties` is mounted at
`/config/server.properties` from a ConfigMap volume of the entry's name. -/
theorem C7_config_mount_paths_witness :
    ∃ ps sts, wReconcileRelCfg = Except.ok ps ∧ stsOf ps = some sts ∧
      (stsMounts sts =
        [({ name := "server-props", path := "server.properties" } : ConfigOptions)].map
          (fun co =>
            { name := co.name,
              mountPath := if pathIsAbsolute co.path then co.path else "/config/" ++ co.path }) ∧
      stsVolumes sts =
        [({ name := "server-props", path := "server.properties" } : ConfigOptions)].map
          fun co => ({ name := co.name, configMap := some { name := co.name } } : Volume)) :=
  ⟨_, _, rfl, rfl,
    C7_config_mount_paths [] (IntOrString.int 25565) wConfig "mcset" "mycelium.njha.dev/v1alpha1"
      "MinecraftSet" wMeta {} wRunnerRelCfg 2 _ _ _ rfl rfl rfl rfl rfl⟩

/-! ## C5 — forwarding-token injection into the child pod -/

/-- C5 (code bug): the generic routine does inject `MYCELIUM_FW_TOKEN` as a
non-optional secret-key reference (key `forwarding_token`, secret named
after the CR), but the per-kind reconcilers that the manager actually
wires (`minecraft_set::reconcile`, `minecraft_proxy::reconcile`) inject
the operator's global forwarding secret as a literal env value with no
`value_from` — contradicting the claim for both CR kinds. -/
theorem C5_literal_secret_env :
    envFind (mcsetReconcileEnv wMcset wConfig) "MYCELIUM_FW_TOKEN" =
      some { name := "MYCELIUM_FW_TOKEN", value := some "global-secret", valueFrom := none } ∧
    (mcproxyReconcileEnv wProxyLblNone wConfig "0.1.0" "https://mycelium.example").bind
        (fun l => envFind l "MYCELIUM_FW_TOKEN") =
      some { name := "MYCELIUM_FW_TOKEN", value := some "global-secret", valueFrom := none } ∧
    (∃ ps sts, wReconcile = Except.ok ps ∧ stsOf ps = some sts ∧
      envFind (stsEnv sts) "MYCELIUM_FW_TOKEN" =
        some { name := "MYCELIUM_FW_TOKEN", value := none,
               valueFrom := some (EnvVarSource.mk
                 (some (SecretKeySelector.mk "forwarding_token" "foo" (some false)))) }) := by
  refine ⟨by decide, by decide, _, _, rfl, rfl, by decide⟩

/-! ## C8 — env determinism -/

/-- C8 counterexample: two MinecraftProxy CRs with identical specs (and
identical name, namespace, uid) but different metadata labels receive
different env lists from the wired proxy reconciler — the env is not a
function of (CR spec, operator config, operator version, CR kind). -/
theorem C8_counterexample :
    wProxyLblProd.spec = wProxyLblNone.spec ∧
    mcproxyReconcileEnv wProxyLblProd wConfig "0.1.0" "https://mycelium.example" ≠
      mcproxyReconcileEnv wProxyLblNone wConfig "0.1.0" "https://mycelium.example" :=
  ⟨rfl, by decide⟩

/-- C8 (amended): the set reconciler's env list is fully determined by
(CR spec, operator config, operator version); the proxy reconciler's env
list is determined by those plus the CR's namespace, its labels at the two
keys `mycelium.njha.dev/env` and `mycelium.njha.dev/proxy`, and the
operator process's `MYCELIUM_ENDPOINT` value at reconcile time — it does
depend on CR metadata labels and the process environment. -/
theorem C8_env_determinism :
    (∀ (s1 s2 : MinecraftSet) (config : MyceliumConfig),
      s1.spec = s2.spec → mcsetReconcileEnv s1 config = mcsetReconcileEnv s2 config) ∧
    (∀ (p1 p2 : MinecraftProxy) (config : MyceliumConfig) (version endpoint : String),
      p1.spec = p2.spec →
      p1.metadata.namespace_ = p2.metadata.namespace_ →
      (p1.metadata.labels.getD []).lookup "mycelium.njha.dev/env" =
        (p2.metadata.labels.getD []).lookup "mycelium.njha.dev/env" →
      (p1.metadata.labels.getD []).lookup "mycelium.njha.dev/proxy" =
        (p2.metadata.labels.getD []).lookup "mycelium.njha.dev/proxy" →
      mcproxyReconcileEnv p1 config version endpoint =
        mcproxyReconcileEnv p2 config version endpoint) := by
  constructor
  · intro s1 s2 config h
    unfold mcsetReconcileEnv
    rw [h]
  · intro p1 p2 config version endpoint hspec hns henv hproxy
    unfold mcproxyReconcileEnv
    simp only [hspec, hns, henv, hproxy]

/-- C8 witness for the amended statement: same set spec under different
metadata gives the same env; same proxy spec under different name/uid (same
namespace, both label keys absent) gives the same env. -/
theorem C8_env_determinism_witness :
    mcsetReconcileEnv wMcsetAltMeta wConfig = mcsetReconcileEnv wMcset wConfig ∧
    mcproxyReconcileEnv wProxyLblNone wConfig "0.1.0" "https://mycelium.example" =
      mcproxyReconcileEnv wProxyAltMeta wConfig "0.1.0" "https://mycelium.example" :=
  ⟨C8_env_determinism.1 wMcsetAltMeta wMcset wConfig rfl,
   C8_env_determinism.2 wProxyLblNone wProxyAltMeta wConfig "0.1.0" "https://mycelium.example"
     rfl rfl rfl rfl⟩
